import Mathlib

/-!
Verification of the BoltChat real-time messaging core (boltchat.py).

The data model and the operations below are a shallow embedding of the
Python source: SQLAlchemy rows become structures, the SQLite store becomes
explicit lists, Flask session state becomes an association list from
socket id to user id, and the socket.io room registry becomes a function
from room names to subscriber lists.  Timestamps are natural numbers; the
wall clock value produced by datetime.utcnow is passed in explicitly.
-/

namespace BoltChat

/-- A socket connection identifier. -/
abbrev Sid := Nat

/-- Row of the users table (class User in boltchat.py). -/
structure User where
  id : Nat
  email : String
  name : String
  password_hash : String
  avatar : Option String
  online : Bool
deriving DecidableEq, Repr

/-- Row of the messages table (class Message in boltchat.py). -/
structure Message where
  id : Nat
  sender_id : Nat
  room : String
  content : String
  timestamp : Nat
deriving DecidableEq, Repr

/-- The SQLite database: both tables plus the autoincrement counters. -/
structure DB where
  users : List User
  messages : List Message
  nextUserId : Nat
  nextMsgId : Nat
deriving DecidableEq, Repr

/-- db.query(User).get(uid). -/
def findUserById (db : DB) (uid : Nat) : Option User :=
  db.users.find? (fun u => u.id == uid)

/-- url_for("uploaded_file", filename=a) when an avatar is set, else the
default (the ternary expression repeated through boltchat.py). -/
def avatarUrl : Option String → String
  | some f => "/uploads/" ++ f
  | none => "/static/default-avatar.png"

/-- db.query(Message).filter_by(room=room): the rows of the messages table
whose room column matches, in table (insertion) order. -/
def roomMessages (db : DB) (room : String) : List Message :=
  db.messages.filter (fun m => m.room == room)

/-- The comparison used by order_by(Message.timestamp). -/
def tsLe (a b : Message) : Prop := a.timestamp ≤ b.timestamp

instance : DecidableRel tsLe :=
  fun a b => inferInstanceAs (Decidable (a.timestamp ≤ b.timestamp))

instance : IsTotal Message tsLe :=
  ⟨fun a b => Nat.le_total a.timestamp b.timestamp⟩

instance : IsTrans Message tsLe :=
  ⟨fun _ _ _ hab hbc => Nat.le_trans hab hbc⟩

/-- The query of api_room_history at the message level:
db.query(Message).filter_by(room=room).order_by(Message.timestamp).limit(100):
sort the room rows ascending by timestamp, then keep the first 100. -/
def room_history_msgs (db : DB) (room : String) : List Message :=
  (List.insertionSort tsLe (roomMessages db room)).take 100

/-- One JSON entry of the api_room_history response; none models the
AttributeError raised when the message sender is missing from the users
table. -/
structure HistEntry where
  sender_id : Nat
  sender_name : String
  sender_avatar : String
  content : String
  timestamp : Nat
deriving DecidableEq, Repr

/-- Building one response entry for a message (the loop body of
api_room_history). -/
def historyEntry (db : DB) (m : Message) : Option HistEntry :=
  (findUserById db m.sender_id).map (fun s =>
    { sender_id := m.sender_id
      sender_name := s.name
      sender_avatar := avatarUrl s.avatar
      content := m.content
      timestamp := m.timestamp })

/-- The api_room_history route: request.args.get("room", "global") defaults
the room, then the query above is rendered to response entries. -/
def api_room_history (db : DB) (roomArg : Option String) : Option (List HistEntry) :=
  let room := roomArg.getD "global"
  (room_history_msgs db room).mapM (historyEntry db)

/-- Follows the words of the spec, for comparison with room_history_msgs:
the most recent `limit` messages of the room, returned in ascending
timestamp order (newest-bounded truncation). -/
def spec_room_history_msgs (db : DB) (room : String) (limit : Nat) : List Message :=
  let sorted := List.insertionSort tsLe (roomMessages db room)
  sorted.drop (sorted.length - limit)

/-- The str.strip() normalization of Python: leading and trailing
whitespace removed. -/
def pyStrip (s : String) : String :=
  ⟨((s.data.dropWhile Char.isWhitespace).reverse.dropWhile Char.isWhitespace).reverse⟩

/-- The str.lower() normalization of Python: every character
lowercased. -/
def pyLower (s : String) : String :=
  ⟨s.data.map Char.toLower⟩

/-- Case-normalization of an email as in the register and login routes:
request.form.get("email", "").strip().lower(). -/
def normEmail (email : String) : String :=
  pyLower (pyStrip email)

/-- The register route (POST branch).  Field values are normalized exactly
as in the source (name.strip(), email.strip().lower()); on success the new
row is committed with online set to True and the session is bound to the
new id.  Returns the new database, the new session binding, and the error
text rendered into the template when registration is rejected. -/
def register (db : DB) (sess : Option Nat) (name email pwd : String)
    (hash : String → String) : DB × Option Nat × Option String :=
  let name := pyStrip name
  let email := normEmail email
  if name = "" ∨ email = "" ∨ pwd = "" then
    (db, sess, some "All fields are required.")
  else if (db.users.find? (fun u => u.email == email)).isSome then
    (db, sess, some "Email already registered.")
  else
    let uid := db.nextUserId
    let user : User :=
      { id := uid
        email := email
        name := name
        password_hash := hash pwd
        avatar := none
        online := true }
    ({ db with users := db.users ++ [user], nextUserId := uid + 1 }, some uid, none)

/-- The room identifier computed by openRoom in the dashboard script:
"private_" + Math.min(id, myId) + "_" + Math.max(id, myId). -/
def privateRoom (a b : Nat) : String :=
  "private_" ++ toString (min a b) ++ "_" ++ toString (max a b)

/-- The socket.io room registry: each room name maps to the list of
subscribed connections (no connection appears twice, by construction of
joinRoom). -/
abbrev Rooms := String → List Sid

/-- Room Membership Tracker lookup: subscribers(room); unknown rooms give
the empty set. -/
def subscribers (rooms : Rooms) (room : String) : List Sid :=
  rooms room

/-- Modelled from the spec: the flask_socketio join_room primitive called
by handle_join is not part of the repository source; per spec section 4.3
it adds the connection to the subscriber set of the room and is
idempotent. -/
def joinRoom (rooms : Rooms) (sid : Sid) (room : String) : Rooms :=
  fun r =>
    if r = room then
      (if sid ∈ rooms room then rooms room else rooms room ++ [sid])
    else rooms r

/-- Modelled from the spec: the flask_socketio leave_room primitive called
by handle_leave is not part of the repository source; per spec section 4.3
it removes the connection from the subscriber set, a no-op when absent. -/
def leaveRoom (rooms : Rooms) (sid : Sid) (room : String) : Rooms :=
  fun r =>
    if r = room then (rooms room).filter (fun x => x != sid)
    else rooms r

/-- Modelled from the spec: transport-level room cleanup on disconnect
(spec sections 4.3 and 9): the connection is removed from every room
subscriber set when its transport disconnects; the repository source has
no explicit disconnect handler and relies on this sweep. -/
def disconnectSweep (rooms : Rooms) (sid : Sid) : Rooms :=
  fun r => (rooms r).filter (fun x => x != sid)

/-- Joining a list of rooms one after another. -/
def joinAll (rooms : Rooms) (sid : Sid) (rs : List String) : Rooms :=
  rs.foldl (fun acc r => joinRoom acc sid r) rooms

/-- Runtime server state: the database, the connected sockets, the room
registry, and the per-connection Flask session binding (sid to user id;
absent means unauthenticated). -/
structure ServerState where
  db : DB
  conns : List Sid
  rooms : Rooms
  sessionOf : List (Sid × Nat)

/-- current_user() evaluated in a socket handler: the session binding of
the connection, resolved against the users table. -/
def current_user (st : ServerState) (sid : Sid) : Option User :=
  (st.sessionOf.lookup sid).bind (fun uid => findUserById st.db uid)

/-- The payload dict built by handle_message and emitted as new_message. -/
structure MsgPayload where
  sender_id : Nat
  sender_name : String
  sender_avatar : String
  room : String
  content : String
  timestamp : Nat
deriving DecidableEq, Repr

/-- One entry of the online_users roster (also the shape served by
api_users): id, name, avatar url, online flag. -/
structure PresenceEntry where
  id : Nat
  name : String
  avatar : String
  online : Bool
deriving DecidableEq, Repr

/-- An outbound delivery to one concrete connection. -/
inductive Event where
  | new_message (dest : Sid) (payload : MsgPayload)
  | online_users (dest : Sid) (users : List PresenceEntry)
deriving DecidableEq, Repr

/-- The full presence roster built in handle_message (and api_users):
every user of the users table as id, name, avatar url, online flag. -/
def presenceSnapshot (db : DB) : List PresenceEntry :=
  db.users.map (fun u =>
    { id := u.id, name := u.name, avatar := avatarUrl u.avatar, online := u.online })

/-- The payload handle_message emits for a given sender, room, content and
clock value. -/
def deliveredPayload (u : User) (room content : String) (now : Nat) : MsgPayload :=
  { sender_id := u.id
    sender_name := u.name
    sender_avatar := avatarUrl u.avatar
    room := room
    content := content
    timestamp := now }

/-- The handle_message socket handler.  An unauthenticated connection
returns immediately (no state change, no events).  Otherwise the message
row is committed, new_message is emitted to every subscriber of the target
room — emit(..., to=room) delivers to each member of the room, the sender
connection included when subscribed — and online_users is emitted with
broadcast=True, that is, to every connected socket. -/
def handle_message (st : ServerState) (sid : Sid) (room content : String)
    (now : Nat) : ServerState × List Event :=
  match current_user st sid with
  | none => (st, [])
  | some sender =>
    let msg : Message :=
      { id := st.db.nextMsgId
        sender_id := sender.id
        room := room
        content := content
        timestamp := now }
    let db2 : DB :=
      { st.db with messages := st.db.messages ++ [msg], nextMsgId := st.db.nextMsgId + 1 }
    let payload := deliveredPayload sender room content now
    let fanout := (subscribers st.rooms room).map (fun c => Event.new_message c payload)
    let snap := presenceSnapshot db2
    let presence := st.conns.map (fun c => Event.online_users c snap)
    ({ st with db := db2 }, fanout ++ presence)

/-- How many new_message events of an event list are addressed to a given
connection. -/
def newMsgCount (evts : List Event) (c : Sid) : Nat :=
  (evts.filter (fun e =>
    match e with
    | Event.new_message c2 _ => c2 == c
    | Event.online_users _ _ => false)).length

/-- How many online_users events of an event list are addressed to a given
connection. -/
def onlineUsersCount (evts : List Event) (c : Sid) : Nat :=
  (evts.filter (fun e =>
    match e with
    | Event.new_message _ _ => false
    | Event.online_users c2 _ => c2 == c)).length

/-- A fixed user, used for concrete evaluations. -/
def userA : User :=
  { id := 1
    email := "a@b.c"
    name := "Ann"
    password_hash := "h"
    avatar := none
    online := true }

/-- The i-th message of the concrete 101-message global history. -/
def msgAt (i : Nat) : Message :=
  { id := i + 1, sender_id := 1, room := "global", content := "m", timestamp := i }

/-- A concrete database holding one user and 101 global-room messages with
strictly increasing timestamps 0..100. -/
def dbC : DB :=
  { users := [userA]
    messages := (List.range 101).map msgAt
    nextUserId := 2
    nextMsgId := 102 }

/-- The user row created by a successful registration. -/
def regUser (db : DB) (name email pwd : String) (hash : String → String) : User :=
  { id := db.nextUserId
    email := normEmail email
    name := pyStrip name
    password_hash := hash pwd
    avatar := none
    online := true }

/-- An empty database. -/
def dbE : DB :=
  { users := [], messages := [], nextUserId := 1, nextMsgId := 1 }

/-- A concrete server state: user 1 is bound to connection 7; connections
7 and 8 are online; only connection 7 is subscribed to the global room. -/
def stC : ServerState :=
  { db := { users := [userA], messages := [], nextUserId := 2, nextMsgId := 1 }
    conns := [7, 8]
    rooms := fun r => if r = "global" then [7] else []
    sessionOf := [(7, 1)] }

/- ------------------------------------------------------------------ -/
/- Helper lemmas                                                      -/
/- ------------------------------------------------------------------ -/

theorem newMsgCount_append (l1 l2 : List Event) (c : Sid) :
    newMsgCount (l1 ++ l2) c = newMsgCount l1 c + newMsgCount l2 c := by
  simp [newMsgCount, List.filter_append]

theorem newMsgCount_fanout (l : List Sid) (p : MsgPayload) (c : Sid) :
    newMsgCount (l.map (fun x => Event.new_message x p)) c = l.count c := by
  unfold newMsgCount
  rw [← List.countP_eq_length_filter, List.countP_map]
  rfl

theorem newMsgCount_presence (l : List Sid) (us : List PresenceEntry) (c : Sid) :
    newMsgCount (l.map (fun x => Event.online_users x us)) c = 0 := by
  unfold newMsgCount
  rw [← List.countP_eq_length_filter, List.countP_map]
  simp [Function.comp]

theorem onlineUsersCount_append (l1 l2 : List Event) (c : Sid) :
    onlineUsersCount (l1 ++ l2) c = onlineUsersCount l1 c + onlineUsersCount l2 c := by
  simp [onlineUsersCount, List.filter_append]

theorem onlineUsersCount_fanout (l : List Sid) (p : MsgPayload) (c : Sid) :
    onlineUsersCount (l.map (fun x => Event.new_message x p)) c = 0 := by
  unfold onlineUsersCount
  rw [← List.countP_eq_length_filter, List.countP_map]
  simp [Function.comp]

theorem onlineUsersCount_presence (l : List Sid) (us : List PresenceEntry) (c : Sid) :
    onlineUsersCount (l.map (fun x => Event.online_users x us)) c = l.count c := by
  unfold onlineUsersCount
  rw [← List.countP_eq_length_filter, List.countP_map]
  rfl

theorem handle_message_events (st : ServerState) (sid : Sid)
    (room content : String) (now : Nat) (u : User)
    (hu : current_user st sid = some u) :
    (handle_message st sid room content now).2 =
      (subscribers st.rooms room).map
        (fun c => Event.new_message c (deliveredPayload u room content now)) ++
      st.conns.map (fun c => Event.online_users c (presenceSnapshot st.db)) := by
  simp [handle_message, hu, presenceSnapshot]

/- ------------------------------------------------------------------ -/
/- Claim theorems                                                     -/
/- ------------------------------------------------------------------ -/

/-- C1 (counterexample): with 101 global messages of increasing timestamps
the query of api_room_history does not return the most recent 100 in
ascending order; order_by(timestamp).limit(100) keeps the first 100 rows
of the ascending sort, which are the oldest 100, and the newest message
(timestamp 100) is dropped. -/
theorem room_history_not_newest_bounded :
    100 < (roomMessages dbC "global").length ∧
    room_history_msgs dbC "global" ≠ spec_room_history_msgs dbC "global" 100 ∧
    (∀ m ∈ room_history_msgs dbC "global", m.timestamp ≠ 100) := by
  decide

/-- C1 (amended): the room-history query returns the messages of room R in
ascending timestamp order, and when more than 100 messages exist in R it
returns the oldest 100 of them (oldest-bounded truncation): the result is
a lower segment of the ascending sort of the room messages, of length
min 100 (number of room messages), and every returned message has a
timestamp at most that of every message cut off. -/
theorem room_history_sorted_oldest_bounded (db : DB) (room : String) :
    List.Sorted tsLe (room_history_msgs db room) ∧
    (room_history_msgs db room).length = min 100 (roomMessages db room).length ∧
    (room_history_msgs db room ++
      (List.insertionSort tsLe (roomMessages db room)).drop 100).Perm
      (roomMessages db room) ∧
    ∀ x ∈ room_history_msgs db room,
      ∀ y ∈ (List.insertionSort tsLe (roomMessages db room)).drop 100,
        x.timestamp ≤ y.timestamp := by
  refine ⟨?_, ?_, ?_, ?_⟩
  · exact List.Pairwise.sublist (List.take_sublist _ _)
      (List.sorted_insertionSort tsLe _)
  · unfold room_history_msgs
    rw [List.length_take, (List.perm_insertionSort tsLe _).length_eq]
  · unfold room_history_msgs
    rw [List.take_append_drop]
    exact List.perm_insertionSort tsLe _
  · intro x hx y hy
    have hs : List.Pairwise tsLe
        ((List.insertionSort tsLe (roomMessages db room)).take 100 ++
          (List.insertionSort tsLe (roomMessages db room)).drop 100) := by
      rw [List.take_append_drop]
      exact List.sorted_insertionSort tsLe _
    exact (List.pairwise_append.mp hs).2.2 x hx y hy

/-- C3: each peer derives the same private room identifier, namely
"private_" followed by the smaller id, an underscore, and the larger id;
for distinct user ids a and b, privateRoom a b equals privateRoom b a. -/
theorem privateRoom_comm (a b : Nat) (_h : a ≠ b) :
    privateRoom a b =
      "private_" ++ toString (min a b) ++ "_" ++ toString (max a b) ∧
    privateRoom a b = privateRoom b a := by
  constructor
  · rfl
  · unfold privateRoom
    rw [Nat.min_comm, Nat.max_comm]

/-- C3 witness at the concrete pair (1, 2). -/
theorem privateRoom_comm_witness :
    (1 : Nat) ≠ 2 ∧
    (privateRoom 1 2 =
      "private_" ++ toString (min 1 2) ++ "_" ++ toString (max 1 2) ∧
    privateRoom 1 2 = privateRoom 2 1) :=
  ⟨by decide, privateRoom_comm 1 2 (by decide)⟩

/-- C4: a send_message event on a connection with no bound user session is
silently dropped: the handler returns the state unchanged (in particular
the message store is unchanged) and emits no event at all. -/
theorem handle_message_unauthenticated (st : ServerState) (sid : Sid)
    (room content : String) (now : Nat)
    (hu : current_user st sid = none) :
    handle_message st sid room content now = (st, []) := by
  simp [handle_message, hu]

/-- C4 witness: connection 9 of the concrete state has no session. -/
theorem handle_message_unauthenticated_witness :
    current_user stC 9 = none ∧
    handle_message stC 9 "global" "hi" 5 = (stC, []) :=
  ⟨rfl, handle_message_unauthenticated stC 9 "global" "hi" 5 rfl⟩

/-- C7: after a connection that joined any list of rooms disconnects, no
room subscriber set still contains it (the transport-level sweep removes
it from every room). -/
theorem disconnect_cleanup (rooms : Rooms) (sid : Sid) (rs : List String)
    (R : String) :
    sid ∉ subscribers (disconnectSweep (joinAll rooms sid rs) sid) R := by
  simp [subscribers, disconnectSweep, List.mem_filter]

/-- C8: join then leave removes the connection from subscribers(R); leave
is a no-op when the connection is not a member; join is idempotent. -/
theorem join_leave_properties (rooms : Rooms) (sid : Sid) (R : String) :
    sid ∉ subscribers (leaveRoom (joinRoom rooms sid R) sid R) R ∧
    (sid ∉ subscribers rooms R → leaveRoom rooms sid R = rooms) ∧
    joinRoom (joinRoom rooms sid R) sid R = joinRoom rooms sid R := by
  refine ⟨?_, ?_, ?_⟩
  · simp [subscribers, leaveRoom, List.mem_filter]
  · intro h
    funext r
    by_cases hr : r = R
    · subst hr
      simp only [leaveRoom, if_pos rfl]
      refine List.filter_eq_self.mpr ?_
      intro a ha
      have : a ≠ sid := fun hcontra => h (hcontra ▸ ha)
      simpa [bne_iff_ne]
    · simp [leaveRoom, hr]
  · funext r
    by_cases hr : r = R
    · subst hr
      by_cases hm : sid ∈ rooms r
      · simp [joinRoom, hm]
      · simp [joinRoom, hm]
    · simp [joinRoom, hr]

/-- C8 witness: on the empty registry and connection 5, join then leave
excludes 5, leave alone is a no-op, and join is idempotent. -/
theorem join_leave_properties_witness :
    (5 ∉ subscribers (leaveRoom (joinRoom (fun _ => []) 5 "global") 5 "global") "global") ∧
    leaveRoom (fun _ => []) 5 "global" = (fun _ => []) ∧
    joinRoom (joinRoom (fun _ => []) 5 "global") 5 "global" =
      joinRoom (fun _ => []) 5 "global" :=
  ⟨(join_leave_properties (fun _ => []) 5 "global").1,
   (join_leave_properties (fun _ => []) 5 "global").2.1 (by decide),
   (join_leave_properties (fun _ => []) 5 "global").2.2⟩

/-- C10: the room-history query called with no room parameter behaves as
if called with room "global": it returns the history of the global
room. -/
theorem api_room_history_default (db : DB) :
    api_room_history db none = api_room_history db (some "global") ∧
    api_room_history db none =
      (room_history_msgs db "global").mapM (historyEntry db) :=
  ⟨rfl, rfl⟩

/-- C2: an authenticated send to a room delivers exactly one new_message
event, carrying the payload of sender id, sender name, sender avatar url,
room, content and timestamp, to each subscriber of the room (the sending
connection included when it is subscribed), and zero new_message events to
every connection not subscribed to the room. -/
theorem handle_message_fanout (st : ServerState) (sid : Sid)
    (room content : String) (now : Nat) (u : User)
    (hu : current_user st sid = some u)
    (hnd : (subscribers st.rooms room).Nodup) :
    (∀ c ∈ subscribers st.rooms room,
        newMsgCount (handle_message st sid room content now).2 c = 1) ∧
    (∀ c, c ∉ subscribers st.rooms room →
        newMsgCount (handle_message st sid room content now).2 c = 0) ∧
    (∀ e ∈ (handle_message st sid room content now).2, ∀ c p,
        e = Event.new_message c p → p = deliveredPayload u room content now) := by
  have hev := handle_message_events st sid room content now u hu
  refine ⟨?_, ?_, ?_⟩
  · intro c hc
    rw [hev, newMsgCount_append, newMsgCount_fanout, newMsgCount_presence]
    have h1 := List.nodup_iff_count_eq_one.mp hnd c hc
    omega
  · intro c hc
    rw [hev, newMsgCount_append, newMsgCount_fanout, newMsgCount_presence]
    have h0 := List.count_eq_zero.mpr hc
    omega
  · intro e he c p hep
    rw [hev] at he
    rcases List.mem_append.mp he with h1 | h2
    · rcases List.mem_map.mp h1 with ⟨x, _, rfl⟩
      injection hep with hc hp
      exact hp.symm
    · rcases List.mem_map.mp h2 with ⟨x, _, rfl⟩
      exact Event.noConfusion hep

/-- C2 witness: in the concrete state, connection 7 (the subscribed
sender) receives exactly one new_message and connection 8 (online but in
no room) receives none. -/
theorem handle_message_fanout_witness :
    7 ∈ subscribers stC.rooms "global" ∧
    newMsgCount (handle_message stC 7 "global" "hi" 5).2 7 = 1 ∧
    newMsgCount (handle_message stC 7 "global" "hi" 5).2 8 = 0 :=
  ⟨by decide,
   (handle_message_fanout stC 7 "global" "hi" 5 userA rfl (by decide)).1 7 (by decide),
   (handle_message_fanout stC 7 "global" "hi" 5 userA rfl (by decide)).2.1 8 (by decide)⟩

/-- C6: after every successful send, a full presence snapshot listing
every user of the users table as id, name, avatar url and online flag is
delivered exactly once to each connected socket, whatever the target room
of the message, and only online_users events carrying exactly that
snapshot are emitted. -/
theorem handle_message_presence_broadcast (st : ServerState) (sid : Sid)
    (room content : String) (now : Nat) (u : User)
    (hu : current_user st sid = some u)
    (hc : st.conns.Nodup) :
    (∀ c ∈ st.conns,
        onlineUsersCount (handle_message st sid room content now).2 c = 1) ∧
    (∀ c, c ∉ st.conns →
        onlineUsersCount (handle_message st sid room content now).2 c = 0) ∧
    (∀ e ∈ (handle_message st sid room content now).2, ∀ c us,
        e = Event.online_users c us → us = presenceSnapshot st.db) := by
  have hev := handle_message_events st sid room content now u hu
  refine ⟨?_, ?_, ?_⟩
  · intro c hcm
    rw [hev, onlineUsersCount_append, onlineUsersCount_fanout,
      onlineUsersCount_presence]
    have h1 := List.nodup_iff_count_eq_one.mp hc c hcm
    omega
  · intro c hcm
    rw [hev, onlineUsersCount_append, onlineUsersCount_fanout,
      onlineUsersCount_presence]
    have h0 := List.count_eq_zero.mpr hcm
    omega
  · intro e he c us hep
    rw [hev] at he
    rcases List.mem_append.mp he with h1 | h2
    · rcases List.mem_map.mp h1 with ⟨x, _, rfl⟩
      exact Event.noConfusion hep
    · rcases List.mem_map.mp h2 with ⟨x, _, rfl⟩
      injection hep with hc2 hus
      exact hus.symm

/-- C6 witness: in the concrete state, connection 8 is subscribed to no
room yet still receives exactly one presence snapshot after the send of
connection 7, as does connection 7 itself. -/
theorem handle_message_presence_broadcast_witness :
    8 ∉ subscribers stC.rooms "global" ∧
    onlineUsersCount (handle_message stC 7 "global" "hi" 5).2 8 = 1 ∧
    onlineUsersCount (handle_message stC 7 "global" "hi" 5).2 7 = 1 :=
  ⟨by decide,
   (handle_message_presence_broadcast stC 7 "global" "hi" 5 userA rfl
     (by decide)).1 8 (by decide),
   (handle_message_presence_broadcast stC 7 "global" "hi" 5 userA rfl
     (by decide)).1 7 (by decide)⟩

/-- C5: a registration whose email equals an already-registered email
after trim and lowercase normalization is rejected with the duplicate
email error, and the database — hence the record of the first registered
user — and the session are unchanged. -/
theorem register_duplicate_email (db : DB) (sess : Option Nat)
    (name email pwd : String) (hash : String → String) (u0 : User)
    (hn : ¬ pyStrip name = "") (hne : ¬ normEmail email = "")
    (hp : ¬ pwd = "")
    (hu : u0 ∈ db.users) (he : u0.email = normEmail email) :
    register db sess name email pwd hash =
      (db, sess, some "Email already registered.") := by
  have hfind : (db.users.find? (fun u => u.email == normEmail email)).isSome := by
    rw [List.find?_isSome]
    exact ⟨u0, hu, by simp [he]⟩
  simp [register, hn, hne, hp, hfind]

/-- C5 witness: with user Ann (email "a@b.c") already registered, a second
registration under " A@B.C " is rejected and the database is unchanged. -/
theorem register_duplicate_email_witness :
    userA ∈ dbC.users ∧
    register dbC none "Bob" " A@B.C " "pw" (fun s => s) =
      (dbC, none, some "Email already registered.") :=
  ⟨by decide,
   register_duplicate_email dbC none "Bob" " A@B.C " "pw" (fun s => s) userA
     (by decide) (by decide) (by decide) (by decide) (by decide)⟩

theorem register_success_eq (db : DB) (sess : Option Nat)
    (name email pwd : String) (hash : String → String)
    (hn : ¬ pyStrip name = "") (hne : ¬ normEmail email = "")
    (hp : ¬ pwd = "")
    (hdup : ∀ u ∈ db.users, ¬ u.email = normEmail email) :
    register db sess name email pwd hash =
      ({ db with
          users := db.users ++ [regUser db name email pwd hash]
          nextUserId := db.nextUserId + 1 },
        some db.nextUserId, none) := by
  have hfind : db.users.find? (fun u => u.email == normEmail email) = none := by
    rw [List.find?_eq_none]
    intro x hx
    simp [hdup x hx]
  simp [register, hn, hne, hp, hfind, regUser]

/-- C9: a successful registration binds the session to the id of the new
user (no separate login step) and stores the new user with the online
flag set to true. -/
theorem register_success_session_online (db : DB) (sess : Option Nat)
    (name email pwd : String) (hash : String → String)
    (hn : ¬ pyStrip name = "") (hne : ¬ normEmail email = "")
    (hp : ¬ pwd = "")
    (hdup : ∀ u ∈ db.users, ¬ u.email = normEmail email) :
    (register db sess name email pwd hash).2.2 = none ∧
    (register db sess name email pwd hash).2.1 = some db.nextUserId ∧
    ∃ u ∈ (register db sess name email pwd hash).1.users,
      u.id = db.nextUserId ∧ u.online = true := by
  rw [register_success_eq db sess name email pwd hash hn hne hp hdup]
  refine ⟨rfl, rfl, ?_⟩
  exact ⟨regUser db name email pwd hash,
    List.mem_append_right _ (List.mem_singleton_self _), rfl, rfl⟩

/-- C9 witness: registering Ann in the empty database binds the session to
the new id 1 and stores her online. -/
theorem register_success_session_online_witness :
    (register dbE none "Ann" "a@b.c" "pw" (fun s => s)).2.2 = none ∧
    (register dbE none "Ann" "a@b.c" "pw" (fun s => s)).2.1 = some dbE.nextUserId ∧
    ∃ u ∈ (register dbE none "Ann" "a@b.c" "pw" (fun s => s)).1.users,
      u.id = dbE.nextUserId ∧ u.online = true :=
  register_success_session_online dbE none "Ann" "a@b.c" "pw" (fun s => s)
    (by decide) (by decide) (by decide) (by decide)

end BoltChat
